import Mathlib

/-!
# Verification of `secbox` (`src/lib.rs`)

A shallow embedding of the `SecBox` secure-container crate.  The contained
value of type `T` is modelled by its byte content, a `List Nat`
(`mem::size_of_val` is its length).  The process heap is a list of regions
indexed by address; each region records its bytes, whether `mlock`
succeeded on it, and whether it has been deallocated.  Every operation is a
state transformer that additionally emits a trace of the observable events
(allocation, `mlock`/`munlock` calls, ordinary and volatile writes,
`ptr::read`, `ptr::drop_in_place`, deallocation, and materialisation of a
value in unprotected stack storage), so that ordering claims are statements
about the trace.

Faithfulness notes, keyed to `src/lib.rs`:
* `memlock` (line 108) calls `libc::mlock` and discards its return value;
  the model takes the success of the `mlock` call as a boolean parameter
  `ok` and records the call in the trace.  When `ok = false` the region
  simply stays unpinned, exactly as the ignored error leaves it.
* `into_inner` (line 94) takes `self` by value and never calls
  `mem::forget`, so when the function returns, `self` goes out of scope
  and `impl Drop for SecBox` (line 181) runs on the already-vacated
  region.  The model of `into_inner` therefore consists of the explicit
  body followed by the drop glue.
* `SecBox::clone_from` (line 136) is `(&mut **self).clone_from(src)`,
  a call to `T`'s `Clone::clone_from`.  The model embeds the default
  implementation `*self = source.clone()`: the source value is first
  materialised as a stack temporary, then the destination's previous
  value is dropped in place and the temporary is moved in.
-/

set_option autoImplicit false

/-- The byte content of a stored value.  `mem::size_of_val` is its length;
for sized `T` all values of the type have the same length. -/
abbrev Val := List Nat

/-- One heap allocation: its current bytes, whether the `mlock` call on it
succeeded (the region is pinned), and whether it has been deallocated. -/
structure Region where
  bytes : Val
  pinned : Bool
  freed : Bool
  deriving Repr, DecidableEq

/-- The process heap: regions indexed by address (list index). -/
abbrev Heap := List Region

/-- Observable events of a `SecBox` operation, in program order. -/
inductive Event where
  /-- A fresh allocation of `size` bytes at `addr` (`Box::into_raw (box ...)`). -/
  | alloc (addr size : Nat)
  /-- A call to `libc::mlock(addr, size)`. -/
  | mlock (addr size : Nat)
  /-- An ordinary write of value `v` at `addr` (`ptr::write`). -/
  | writeVal (addr : Nat) (v : Val)
  /-- A read of value `v` out of `addr` (`ptr::read`). -/
  | readVal (addr : Nat) (v : Val)
  /-- A volatile zeroing of `size` bytes at `addr`
  (`ptr::write_volatile(_, mem::zeroed())` / `intrinsics::volatile_set_memory`). -/
  | volatileZero (addr size : Nat)
  /-- Running the stored value's destructor in place (`ptr::drop_in_place`). -/
  | dropInPlace (addr : Nat)
  /-- A call to `libc::munlock(addr, size)`. -/
  | munlock (addr size : Nat)
  /-- Deallocation of the region at `addr` (dropping the `Box` from `Box::from_raw`). -/
  | free (addr : Nat)
  /-- A copy of value `v` materialised in unprotected stack storage. -/
  | stackCopy (v : Val)
  deriving Repr, DecidableEq

/-- The default `Region` used for out-of-range reads. -/
def defaultRegion : Region := ⟨[], false, false⟩

/-- Read the region at address `a`. -/
def getR (h : Heap) (a : Nat) : Region := h.getD a defaultRegion

/-- Replace the region at address `a`. -/
def setR (h : Heap) (a : Nat) (r : Region) : Heap := h.set a r

/-- The bytes an uninitialized allocation of `n` bytes holds
(`mem::uninitialized`): arbitrary junk, modelled as the byte 204. -/
def uninit (n : Nat) : Val := List.replicate n 204

/-- `SecBox<T>` (line 61 of `src/lib.rs`): a raw pointer (`Unique<T>`) to the
backing region, modelled by the region's address. -/
structure SecBox where
  inner : Nat
  deriving Repr, DecidableEq

/-- `mem::size_of_val(&**self)`: the dynamic size of the stored value. -/
def sizeOfVal (h : Heap) (b : SecBox) : Nat := (getR h b.inner).bytes.length

/-- `SecBox::memlock` (line 108): calls `libc::mlock` on the region and
IGNORES its return value.  `ok` says whether the call succeeded; the region
becomes pinned exactly when it did. -/
def SecBox.memlock (ok : Bool) (b : SecBox) (h : Heap) : Heap × List Event :=
  let r := getR h b.inner
  (setR h b.inner { r with pinned := r.pinned || ok },
   [Event.mlock b.inner (sizeOfVal h b)])

/-- `SecBox::memunlock` (line 116): calls `libc::munlock` on the region
(return value likewise ignored; the region is no longer pinned). -/
def SecBox.memunlock (b : SecBox) (h : Heap) : Heap × List Event :=
  let r := getR h b.inner
  (setR h b.inner { r with pinned := false },
   [Event.munlock b.inner (sizeOfVal h b)])

/-- `SecBox::new` (line 74): allocate an uninitialized region
(`Box::into_raw (box mem::uninitialized())`), `memlock` it, then
`ptr::write` the supplied value into it.  `ok` is the success of the
ignored `mlock` call. -/
def SecBox.new (ok : Bool) (v : Val) (h : Heap) : SecBox × Heap × List Event :=
  let a := h.length
  let b : SecBox := ⟨a⟩
  let h1 := h ++ [⟨uninit v.length, false, false⟩]
  let (h2, e2) := SecBox.memlock ok b h1
  let r2 := getR h2 a
  let h3 := setR h2 a { r2 with bytes := v }
  (b, h3, Event.alloc a v.length :: e2 ++ [Event.writeVal a v])

/-- `impl From<Box<T>> for SecBox<T>` (line 141): adopt an existing
allocation already holding the value, then `memlock` it in place. -/
def SecBox.from_box (ok : Bool) (v : Val) (h : Heap) : SecBox × Heap × List Event :=
  let a := h.length
  let b : SecBox := ⟨a⟩
  let h1 := h ++ [⟨v, false, false⟩]
  let (h2, e2) := SecBox.memlock ok b h1
  (b, h2, e2)

/-- `impl Deref for SecBox` (line 154): read the stored value through the
inner pointer.  No copy, no state change. -/
def SecBox.deref (b : SecBox) (h : Heap) : Val := (getR h b.inner).bytes

/-- A store through `impl DerefMut for SecBox` (line 163): `*bx = v`
writes through the inner pointer; only the pointed-to region changes. -/
def SecBox.write_through (b : SecBox) (v : Val) (h : Heap) : SecBox × Heap :=
  let r := getR h b.inner
  (b, setR h b.inner { r with bytes := v })

/-- The body of `impl Drop for SecBox` (line 181): `ptr::drop_in_place`,
then `intrinsics::volatile_set_memory(_, 0, mem::size_of_val(&**self))`,
then `Box::from_raw` over the bytes (freed when `_buf` goes out of scope,
i.e. after the `memunlock` below), then `memunlock`, then the free. -/
def SecBox.drop_glue (b : SecBox) (h : Heap) : Heap × List Event :=
  let n := sizeOfVal h b
  let r := getR h b.inner
  let h1 := setR h b.inner { r with bytes := List.replicate n 0 }
  let (h2, e2) := SecBox.memunlock b h1
  let r2 := getR h2 b.inner
  let h3 := setR h2 b.inner { r2 with freed := true }
  (h3, Event.dropInPlace b.inner :: Event.volatileZero b.inner n :: e2
        ++ [Event.free b.inner])

/-- `SecBox::into_inner` (line 94): `ptr::read` the value out, volatile-zero
the region (`ptr::write_volatile(_, mem::zeroed())`), `memunlock` it — and
then, because `self` was taken by value and `mem::forget` is never called,
`self` goes out of scope and the drop glue of `impl Drop` runs on the same
region. -/
def SecBox.into_inner (b : SecBox) (h : Heap) : Val × Heap × List Event :=
  let res := SecBox.deref b h
  let n := sizeOfVal h b
  let r := getR h b.inner
  let h1 := setR h b.inner { r with bytes := List.replicate n 0 }
  let (h2, e2) := SecBox.memunlock b h1
  let (h3, e3) := SecBox.drop_glue b h2
  (res, h3, Event.readVal b.inner res :: Event.volatileZero b.inner n :: e2 ++ e3)

/-- `SecBox::clone_from` (line 136): `(&mut **self).clone_from(src)`.
This embeds the default `Clone::clone_from`, `*self = source.clone()`:
`source.clone()` materialises a copy of the source value as a stack
temporary, the assignment then drops the destination's previous value in
place and moves the temporary into the region. -/
def SecBox.clone_from (dest src : SecBox) (h : Heap) : SecBox × Heap × List Event :=
  let v := SecBox.deref src h
  let r := getR h dest.inner
  let h1 := setR h dest.inner { r with bytes := v }
  (dest, h1,
   [Event.stackCopy v, Event.dropInPlace dest.inner, Event.writeVal dest.inner v])

/-- `SecBox::clone` (line 125): `SecBox::new (mem::uninitialized())`
followed by `bx.clone_from(self)` into the fresh pinned region. -/
def SecBox.clone (ok : Bool) (src : SecBox) (h : Heap) : SecBox × Heap × List Event :=
  let n := sizeOfVal h src
  let (bx, h1, e1) := SecBox.new ok (uninit n) h
  let (bx2, h2, e2) := SecBox.clone_from bx src h1
  (bx2, h2, e1 ++ e2)

/-- `impl Display for SecBox` (line 169): always the fixed placeholder. -/
def SecBox.display (_ : SecBox) : String := "*******"

/-- `impl Debug for SecBox` (line 175): always the fixed placeholder. -/
def SecBox.debug_fmt (_ : SecBox) : String := "*******"

/-! ## Heap lemmas -/

theorem getD_set_self {α : Type} (l : List α) (a : Nat) (r d : α) (ha : a < l.length) :
    (l.set a r).getD a d = r := by
  induction l generalizing a with
  | nil => simp at ha
  | cons x t ih =>
    cases a with
    | zero => simp
    | succ a => simpa using ih a (Nat.lt_of_succ_lt_succ ha)

theorem getD_set_ne {α : Type} (l : List α) (a a' : Nat) (r d : α) (hne : a ≠ a') :
    (l.set a r).getD a' d = l.getD a' d := by
  induction l generalizing a a' with
  | nil => rfl
  | cons x t ih =>
    cases a with
    | zero =>
      cases a' with
      | zero => exact absurd rfl hne
      | succ a' => simp
    | succ a =>
      cases a' with
      | zero => simp
      | succ a' => simpa using ih a a' (fun hh => hne (congrArg Nat.succ hh))

theorem set_append_len {α : Type} (l : List α) (r r' : α) :
    (l ++ [r]).set l.length r' = l ++ [r'] := by
  induction l with
  | nil => rfl
  | cons x t ih => simp [ih]

theorem getD_append_len {α : Type} (l : List α) (r d : α) :
    (l ++ [r]).getD l.length d = r := by
  induction l with
  | nil => rfl
  | cons x t ih => simp [ih]

/-! ## Unfolding lemmas for the operations -/

/-- `SecBox::new` in closed form: the box points at the fresh address, the
heap gains one region holding the value, pinned exactly when the `mlock`
call succeeded, and the trace is allocate, `mlock`, write — in that order. -/
theorem new_spec (ok : Bool) (v : Val) (h : Heap) :
    SecBox.new ok v h =
      (⟨h.length⟩, h ++ [⟨v, ok, false⟩],
       [Event.alloc h.length v.length, Event.mlock h.length v.length,
        Event.writeVal h.length v]) := by
  simp [SecBox.new, SecBox.memlock, sizeOfVal, getR, setR, uninit,
        getD_append_len, set_append_len]

/-- `From<Box<T>>` in closed form. -/
theorem from_box_spec (ok : Bool) (v : Val) (h : Heap) :
    SecBox.from_box ok v h =
      (⟨h.length⟩, h ++ [⟨v, ok, false⟩], [Event.mlock h.length v.length]) := by
  simp [SecBox.from_box, SecBox.memlock, sizeOfVal, getR, setR,
        getD_append_len, set_append_len]

/-- `impl Drop` in closed form, for any valid address: the region keeps its
address, its bytes become zero over its full dynamic extent, it is
unpinned and freed, and the events are exactly destructor, volatile zero,
`munlock`, free — in that order. -/
theorem drop_glue_spec (b : SecBox) (h : Heap) (hb : b.inner < h.length) :
    SecBox.drop_glue b h =
      (setR h b.inner ⟨List.replicate (sizeOfVal h b) 0, false, true⟩,
       [Event.dropInPlace b.inner, Event.volatileZero b.inner (sizeOfVal h b),
        Event.munlock b.inner (sizeOfVal h b), Event.free b.inner]) := by
  simp [SecBox.drop_glue, SecBox.memunlock, sizeOfVal, getR, setR,
        getD_set_self, hb, List.set_set]

/-- `into_inner` on a freshly constructed box, in closed form: the original
value comes back out; the region ends zeroed, unpinned and freed; the trace
is the explicit body (read, volatile zero, `munlock`) followed by the drop
glue that runs because `self` is dropped at the end of the call. -/
theorem into_inner_new_spec (ok : Bool) (v : Val) (h : Heap) :
    SecBox.into_inner (SecBox.new ok v h).1 (SecBox.new ok v h).2.1 =
      (v, h ++ [⟨List.replicate v.length 0, false, true⟩],
       [Event.readVal h.length v, Event.volatileZero h.length v.length,
        Event.munlock h.length v.length, Event.dropInPlace h.length,
        Event.volatileZero h.length v.length, Event.munlock h.length v.length,
        Event.free h.length]) := by
  simp [new_spec, SecBox.into_inner, SecBox.drop_glue, SecBox.memunlock,
        SecBox.deref, sizeOfVal, getR, setR, getD_append_len, set_append_len]

/-- `clone` in closed form, given that the source points into the heap: a
fresh region is allocated and `mlock`ed, the junk from
`mem::uninitialized` is written into it, and then the default
`Clone::clone_from` materialises the source value as a stack temporary,
drops the junk in place and writes the copy into the fresh region. -/
theorem clone_spec (ok : Bool) (src : SecBox) (h : Heap) (hs : src.inner < h.length) :
    SecBox.clone ok src h =
      (⟨h.length⟩, h ++ [⟨SecBox.deref src h, ok, false⟩],
       [Event.alloc h.length (sizeOfVal h src), Event.mlock h.length (sizeOfVal h src),
        Event.writeVal h.length (uninit (sizeOfVal h src)),
        Event.stackCopy (SecBox.deref src h), Event.dropInPlace h.length,
        Event.writeVal h.length (SecBox.deref src h)]) := by
  simp [SecBox.clone, new_spec, SecBox.clone_from, SecBox.deref, getR, setR,
        uninit, getD_append_len, set_append_len,
        List.getElem?_append_left hs]

theorem getR_append_len (h : Heap) (r : Region) : getR (h ++ [r]) h.length = r :=
  getD_append_len h r defaultRegion

theorem getR_append_lt (h : Heap) (r : Region) (a : Nat) (ha : a < h.length) :
    getR (h ++ [r]) a = getR h a :=
  List.getD_append h [r] defaultRegion a ha

theorem getR_set_self (h : Heap) (a : Nat) (r : Region) (ha : a < h.length) :
    getR (setR h a r) a = r :=
  getD_set_self h a r defaultRegion ha

theorem getR_set_ne (h : Heap) (a a' : Nat) (r : Region) (hne : a ≠ a') :
    getR (setR h a r) a' = getR h a' :=
  getD_set_ne h a a' r defaultRegion hne

/-! ## The claims -/

/-- C1: refuted on the code (code bug).  `into_inner` takes `self` by value
and never calls `mem::forget`, so the `Drop` impl still runs when the call
returns: the trace of `into_inner` on a constructed box reads the value out
and then ALSO runs `ptr::drop_in_place` on the same region — both
extraction and in-place destruction occur for the one container, against
the claim that the destructor is not invoked again after extraction. -/
theorem secbox_into_inner_runs_destructor_again (ok : Bool) (v : Val) (h : Heap) :
    (SecBox.into_inner (SecBox.new ok v h).1 (SecBox.new ok v h).2.1).2.2 =
      [Event.readVal h.length v, Event.volatileZero h.length v.length,
       Event.munlock h.length v.length, Event.dropInPlace h.length,
       Event.volatileZero h.length v.length, Event.munlock h.length v.length,
       Event.free h.length] ∧
    Event.dropInPlace h.length ∈
      (SecBox.into_inner (SecBox.new ok v h).1 (SecBox.new ok v h).2.1).2.2 := by
  simp [into_inner_new_spec]

/-- C2 counterexample: when the `mlock` call fails, `new` still completes
and hands back a container whose backing region holds the value unpinned —
construction is not aborted, against "pinned or not constructed". -/
theorem secbox_new_completes_on_mlock_failure :
    (SecBox.new false [7] []).2.1 = [⟨[7], false, false⟩] ∧
    (getR (SecBox.new false [7] []).2.1 (SecBox.new false [7] []).1.inner).pinned
      = false := by
  decide

/-- C2 as amended: `new` invokes `mlock` on the region before writing the
value but ignores its result, so construction always completes, and the
backing region of the returned container is pinned exactly when the
`mlock` call succeeded. -/
theorem secbox_new_pinned_iff_mlock_succeeds (ok : Bool) (v : Val) (h : Heap) :
    (SecBox.new ok v h).2.1 = h ++ [⟨v, ok, false⟩] ∧
    (getR (SecBox.new ok v h).2.1 (SecBox.new ok v h).1.inner).pinned = ok := by
  simp [new_spec, getR_append_len]

/-- C3: `into_inner` on a box constructed from `v` returns exactly `v`, and
when the call returns, every byte of the former backing region is zero and
the region is unpinned. -/
theorem secbox_into_inner_returns_value_zeroes_unpins (ok : Bool) (v : Val) (h : Heap) :
    (SecBox.into_inner (SecBox.new ok v h).1 (SecBox.new ok v h).2.1).1 = v ∧
    (getR (SecBox.into_inner (SecBox.new ok v h).1 (SecBox.new ok v h).2.1).2.1
        (SecBox.new ok v h).1.inner).bytes = List.replicate v.length 0 ∧
    (getR (SecBox.into_inner (SecBox.new ok v h).1 (SecBox.new ok v h).2.1).2.1
        (SecBox.new ok v h).1.inner).pinned = false := by
  rw [into_inner_new_spec, new_spec]
  simp [getR_append_len]

/-- C4: dropping a `SecBox` performs, in order, destructor in place,
volatile zero of the full dynamic byte extent (`mem::size_of_val`, not a
static size), `munlock`, free; afterwards the region's bytes are all
zero. -/
theorem secbox_drop_destruct_zero_unpin_free (b : SecBox) (h : Heap)
    (hb : b.inner < h.length) :
    (SecBox.drop_glue b h).2 =
      [Event.dropInPlace b.inner, Event.volatileZero b.inner (sizeOfVal h b),
       Event.munlock b.inner (sizeOfVal h b), Event.free b.inner] ∧
    getR (SecBox.drop_glue b h).1 b.inner =
      ⟨List.replicate (sizeOfVal h b) 0, false, true⟩ := by
  rw [drop_glue_spec b h hb]
  exact ⟨rfl, getR_set_self h b.inner _ hb⟩

/-- Witness for C4 at a region of dynamic size 3 (as adopted by
`From<Box<T>>`). -/
theorem secbox_drop_destruct_zero_unpin_free_witness :
    (SecBox.drop_glue ⟨0⟩ [⟨[1, 2, 3], true, false⟩]).2 =
      [Event.dropInPlace 0, Event.volatileZero 0 3, Event.munlock 0 3,
       Event.free 0] ∧
    getR (SecBox.drop_glue ⟨0⟩ [⟨[1, 2, 3], true, false⟩]).1 0 =
      ⟨[0, 0, 0], false, true⟩ :=
  secbox_drop_destruct_zero_unpin_free ⟨0⟩ [⟨[1, 2, 3], true, false⟩] (by decide)

/-- C5: dereferencing a container immediately after `new` yields the value
supplied to `new`. -/
theorem secbox_new_deref_returns_value (ok : Bool) (v : Val) (h : Heap) :
    SecBox.deref (SecBox.new ok v h).1 (SecBox.new ok v h).2.1 = v := by
  simp [new_spec, SecBox.deref, getR_append_len]

/-- C6 counterexample: when the ignored `mlock` call fails, `new` writes
the supplied value into the region and finishes construction with the
region unpinned — the contained value does reside in an unpinned heap
region during (and after) construction, against the claim's conclusion. -/
theorem secbox_new_value_in_unpinned_region_on_mlock_failure :
    (getR (SecBox.new false [3] []).2.1 (SecBox.new false [3] []).1.inner).bytes
      = [3] ∧
    (getR (SecBox.new false [3] []).2.1 (SecBox.new false [3] []).1.inner).pinned
      = false := by
  decide

/-- C6 as amended: in `new`, the `mlock` call on the backing region happens
strictly before the supplied value is written into it (trace positions 1
and 2); the region the write is performed on, and the region of the
returned container, are pinned exactly when the `mlock` call succeeded —
so the value never resides in an unpinned heap region during construction
provided pinning succeeded, while on `mlock` failure it is written into an
unpinned region. -/
theorem secbox_new_memlocks_before_write (ok : Bool) (v : Val) (h : Heap) :
    (SecBox.new ok v h).2.2 =
      [Event.alloc h.length v.length, Event.mlock h.length v.length,
       Event.writeVal h.length v] ∧
    (SecBox.new ok v h).2.2[1]? = some (Event.mlock h.length v.length) ∧
    (SecBox.new ok v h).2.2[2]? = some (Event.writeVal h.length v) ∧
    (getR (SecBox.memlock ok ⟨h.length⟩
        (h ++ [⟨uninit v.length, false, false⟩])).1 h.length).pinned = ok ∧
    (getR (SecBox.new ok v h).2.1 (SecBox.new ok v h).1.inner).pinned = ok := by
  refine ⟨by simp [new_spec], by simp [new_spec], by simp [new_spec], ?_, ?_⟩
  · simp [SecBox.memlock, setR, set_append_len, getR_append_len]
  · simp [new_spec, getR_append_len]

/-- C7 counterexample: cloning a box holding `[7]` emits a copy of the
source value in unprotected stack storage — the default
`Clone::clone_from` that the code delegates to is
`*self = source.clone()`, whose `source.clone()` is a stack temporary, so
an intermediate unprotected copy IS materialised. -/
theorem secbox_clone_materializes_stack_copy :
    Event.stackCopy [7] ∈ (SecBox.clone true ⟨0⟩ [⟨[7], true, false⟩]).2.2 := by
  decide

/-- C7 as amended: `clone` allocates a fresh, already-`mlock`ed region
distinct from the source and fills it in place, so the two containers are
independent — they hold equal values and writing through either leaves the
other's value unchanged — but the duplication goes through `T`'s
`clone_from`, whose default implementation materialises a temporary copy
of the source value on the stack before moving it into the pinned
region. -/
theorem secbox_clone_independent (src : SecBox) (h : Heap) (w : Val)
    (hs : src.inner < h.length) :
    (SecBox.clone true src h).1.inner ≠ src.inner ∧
    SecBox.deref (SecBox.clone true src h).1 (SecBox.clone true src h).2.1 =
      SecBox.deref src (SecBox.clone true src h).2.1 ∧
    (getR (SecBox.clone true src h).2.1 (SecBox.clone true src h).1.inner).pinned
      = true ∧
    SecBox.deref src
        (SecBox.write_through (SecBox.clone true src h).1 w
          (SecBox.clone true src h).2.1).2 =
      SecBox.deref src (SecBox.clone true src h).2.1 ∧
    SecBox.deref (SecBox.clone true src h).1
        (SecBox.write_through src w (SecBox.clone true src h).2.1).2 =
      SecBox.deref (SecBox.clone true src h).1 (SecBox.clone true src h).2.1 ∧
    Event.stackCopy (SecBox.deref src h) ∈ (SecBox.clone true src h).2.2 := by
  have hne : h.length ≠ src.inner := ne_of_gt hs
  rw [clone_spec true src h hs]
  refine ⟨hne, ?_, ?_, ?_, ?_, ?_⟩ <;>
    simp [SecBox.deref, SecBox.write_through, getR_append_len,
          getR_append_lt _ _ _ hs, getR_set_ne _ _ _ _ hne,
          getR_set_ne _ _ _ _ hne.symm]

/-- Witness for C7 on a one-region heap. -/
theorem secbox_clone_independent_witness :
    (SecBox.clone true ⟨0⟩ [⟨[7], true, false⟩]).1.inner ≠ (⟨0⟩ : SecBox).inner ∧
    SecBox.deref (SecBox.clone true ⟨0⟩ [⟨[7], true, false⟩]).1
        (SecBox.clone true ⟨0⟩ [⟨[7], true, false⟩]).2.1 =
      SecBox.deref ⟨0⟩ (SecBox.clone true ⟨0⟩ [⟨[7], true, false⟩]).2.1 ∧
    (getR (SecBox.clone true ⟨0⟩ [⟨[7], true, false⟩]).2.1
        (SecBox.clone true ⟨0⟩ [⟨[7], true, false⟩]).1.inner).pinned = true ∧
    SecBox.deref ⟨0⟩
        (SecBox.write_through (SecBox.clone true ⟨0⟩ [⟨[7], true, false⟩]).1 [9]
          (SecBox.clone true ⟨0⟩ [⟨[7], true, false⟩]).2.1).2 =
      SecBox.deref ⟨0⟩ (SecBox.clone true ⟨0⟩ [⟨[7], true, false⟩]).2.1 ∧
    SecBox.deref (SecBox.clone true ⟨0⟩ [⟨[7], true, false⟩]).1
        (SecBox.write_through ⟨0⟩ [9]
          (SecBox.clone true ⟨0⟩ [⟨[7], true, false⟩]).2.1).2 =
      SecBox.deref (SecBox.clone true ⟨0⟩ [⟨[7], true, false⟩]).1
        (SecBox.clone true ⟨0⟩ [⟨[7], true, false⟩]).2.1 ∧
    Event.stackCopy (SecBox.deref ⟨0⟩ [⟨[7], true, false⟩]) ∈
      (SecBox.clone true ⟨0⟩ [⟨[7], true, false⟩]).2.2 :=
  secbox_clone_independent ⟨0⟩ [⟨[7], true, false⟩] [9] (by decide)

/-- C8: `Display` and `Debug` formatting of a `SecBox` always produce the
same fixed redaction placeholder, for every pair of containers and
independently of the contained bytes. -/
theorem secbox_format_redacted (b1 b2 : SecBox) :
    SecBox.display b1 = "*******" ∧ SecBox.debug_fmt b1 = "*******" ∧
    SecBox.display b1 = SecBox.display b2 ∧
    SecBox.debug_fmt b1 = SecBox.debug_fmt b2 ∧
    SecBox.display b1 = SecBox.debug_fmt b1 :=
  ⟨rfl, rfl, rfl, rfl, rfl⟩

/-- C9 counterexample: `clone_from` into a destination box emits a copy of
the source value in unprotected stack storage (the `source.clone()`
temporary of the default `Clone::clone_from`), against "no transient copy
of the source value exists in unprotected memory". -/
theorem secbox_clone_from_materializes_stack_copy :
    Event.stackCopy [5] ∈
      (SecBox.clone_from ⟨1⟩ ⟨0⟩ [⟨[5], true, false⟩, ⟨[9], true, false⟩]).2.2 := by
  decide

/-- C9 as amended: `clone_from` re-populates the destination in place —
the destination's prior value is dropped in place strictly before the
copy of the source value is written over it, afterwards destination and
source hold equal values and the source is unchanged — but, through the
default `Clone::clone_from`, a transient copy of the source value is
materialised on the stack first. -/
theorem secbox_clone_from_replaces (dest src : SecBox) (h : Heap)
    (hd : dest.inner < h.length) (hne : dest.inner ≠ src.inner) :
    (SecBox.clone_from dest src h).1 = dest ∧
    SecBox.deref dest (SecBox.clone_from dest src h).2.1 = SecBox.deref src h ∧
    SecBox.deref src (SecBox.clone_from dest src h).2.1 = SecBox.deref src h ∧
    (SecBox.clone_from dest src h).2.2 =
      [Event.stackCopy (SecBox.deref src h), Event.dropInPlace dest.inner,
       Event.writeVal dest.inner (SecBox.deref src h)] := by
  refine ⟨rfl, ?_, ?_, rfl⟩ <;>
    simp [SecBox.clone_from, SecBox.deref, getR_set_self _ _ _ hd,
          getR_set_ne _ _ _ _ hne]

/-- Witness for C9 on a two-region heap. -/
theorem secbox_clone_from_replaces_witness :
    (SecBox.clone_from ⟨1⟩ ⟨0⟩ [⟨[5], true, false⟩, ⟨[9], true, false⟩]).1 = ⟨1⟩ ∧
    SecBox.deref ⟨1⟩
        (SecBox.clone_from ⟨1⟩ ⟨0⟩ [⟨[5], true, false⟩, ⟨[9], true, false⟩]).2.1 =
      SecBox.deref ⟨0⟩ [⟨[5], true, false⟩, ⟨[9], true, false⟩] ∧
    SecBox.deref ⟨0⟩
        (SecBox.clone_from ⟨1⟩ ⟨0⟩ [⟨[5], true, false⟩, ⟨[9], true, false⟩]).2.1 =
      SecBox.deref ⟨0⟩ [⟨[5], true, false⟩, ⟨[9], true, false⟩] ∧
    (SecBox.clone_from ⟨1⟩ ⟨0⟩ [⟨[5], true, false⟩, ⟨[9], true, false⟩]).2.2 =
      [Event.stackCopy (SecBox.deref ⟨0⟩ [⟨[5], true, false⟩, ⟨[9], true, false⟩]),
       Event.dropInPlace 1,
       Event.writeVal 1 (SecBox.deref ⟨0⟩ [⟨[5], true, false⟩, ⟨[9], true, false⟩])] :=
  secbox_clone_from_replaces ⟨1⟩ ⟨0⟩ [⟨[5], true, false⟩, ⟨[9], true, false⟩]
    (by decide) (by decide)

/-- C10: the inner pointer of a `SecBox` never changes: a store through
`deref_mut` and a `clone_from` both give back the box with the same inner
address and touch no region other than the one at that address (formatting
and `deref` are pure functions and change nothing). -/
theorem secbox_inner_pointer_stable (b src : SecBox) (h : Heap) (v : Val) (a : Nat)
    (ha : a ≠ b.inner) :
    (SecBox.write_through b v h).1 = b ∧
    (SecBox.clone_from b src h).1 = b ∧
    getR (SecBox.write_through b v h).2 a = getR h a ∧
    getR (SecBox.clone_from b src h).2.1 a = getR h a := by
  refine ⟨rfl, rfl, ?_, ?_⟩ <;>
    simp [SecBox.write_through, SecBox.clone_from,
          getR_set_ne _ _ _ _ (Ne.symm ha)]

/-- Witness for C10: mutating through box 0 leaves region 1 untouched. -/
theorem secbox_inner_pointer_stable_witness :
    (SecBox.write_through ⟨0⟩ [7] [⟨[5], true, false⟩, ⟨[9], true, false⟩]).1 = ⟨0⟩ ∧
    (SecBox.clone_from ⟨0⟩ ⟨1⟩ [⟨[5], true, false⟩, ⟨[9], true, false⟩]).1 = ⟨0⟩ ∧
    getR (SecBox.write_through ⟨0⟩ [7] [⟨[5], true, false⟩, ⟨[9], true, false⟩]).2 1 =
      getR [⟨[5], true, false⟩, ⟨[9], true, false⟩] 1 ∧
    getR (SecBox.clone_from ⟨0⟩ ⟨1⟩ [⟨[5], true, false⟩, ⟨[9], true, false⟩]).2.1 1 =
      getR [⟨[5], true, false⟩, ⟨[9], true, false⟩] 1 :=
  secbox_inner_pointer_stable ⟨0⟩ ⟨1⟩ [⟨[5], true, false⟩, ⟨[9], true, false⟩] [7] 1
    (by decide)
